import Mathlib

/-!
Verification of the EduGenie plan-generation pipeline (tutor.py).

Strings are embedded as lists of characters so that every operation of the
program (Python str.split, str.strip, str.join, str.lower, substring tests)
is a structurally recursive, kernel-computable Lean function.  The upstream
search provider (Tavily) and the LLM (Groq) are external collaborators and
are modelled as function parameters / explicit outcomes.  The two cache
layers of search_courses (the st.cache_data memo of line 27 and the
st.session_state.search_cache map of lines 24-25) are explicit state.
-/

namespace EduGenie

/-- The characters of a string literal: the representation of Python strings
in this development. -/
def chars (s : String) : List Char := s.data

/-- Python str.lower, applied per character (ASCII), as used on line 31
(topic.lower()) and line 53 (result title .lower()). -/
def lowerStr (s : List Char) : List Char := s.map Char.toLower

/-- Python substring containment (the `in` operator of line 53): does `sep`
occur contiguously inside the second argument. -/
def containsSub (sep : List Char) : List Char → Bool
  | [] => List.isPrefixOf sep []
  | c :: rest => List.isPrefixOf sep (c :: rest) || containsSub sep rest

/-- Fuel-driven worker for Python str.split with a nonempty separator: scans
left to right, cutting at each occurrence of `sep`.  The fuel bounds the
number of scanning steps; `pySplit` supplies fuel equal to the input length,
which is always sufficient. -/
def splitFuel (sep : List Char) : Nat → List Char → List Char → List (List Char)
  | _, [], acc => [acc.reverse]
  | 0, s, acc => [acc.reverse ++ s]
  | fuel + 1, c :: rest, acc =>
    if List.isPrefixOf sep (c :: rest) then
      acc.reverse :: splitFuel sep fuel (List.drop (sep.length - 1) rest) []
    else
      splitFuel sep fuel rest (c :: acc)

/-- Python str.split(sep) for a nonempty separator, as used on lines 227
(split on the week marker) and 230-231 (split on the colon). -/
def pySplit (sep s : List Char) : List (List Char) := splitFuel sep s.length s []

/-- Remove leading whitespace characters: worker for Python str.strip(). -/
def dropLeadingWs : List Char → List Char
  | [] => []
  | c :: rest => if c.isWhitespace then dropLeadingWs rest else c :: rest

/-- Python str.strip() (line 231): remove leading and trailing whitespace. -/
def pyStrip (s : List Char) : List Char :=
  (dropLeadingWs ((dropLeadingWs s).reverse)).reverse

/-- Python sep.join(parts) (line 231). -/
def pyJoin (sep : List Char) : List (List Char) → List Char
  | [] => []
  | [p] => p
  | p :: rest => p ++ sep ++ pyJoin sep rest

/-- One parsed week of the learning plan: the text before the first colon of
a segment, and the stripped text after it. -/
structure WeekSection where
  weekNumber : List Char
  content : List Char
  deriving DecidableEq

/-- The delimiter of line 227. -/
def weekMarker : List Char := chars "Week "

/-- The delimiter of lines 230-231. -/
def colonSep : List Char := chars ":"

/-- Lines 230-234, one loop iteration: split the segment on colons, take the
first piece as the week number, rejoin and strip the rest as the content,
and drop the section when the stripped content is empty. -/
def parseSection (seg : List Char) : Option WeekSection :=
  let parts := pySplit colonSep seg
  let weekNum := parts.headD []
  let content := pyStrip (pyJoin colonSep (parts.drop 1))
  if content = [] then none else some ⟨weekNum, content⟩

/-- Lines 227-234: split the raw plan on the week marker, skip the first
segment, and build the week sections in order. -/
def parsePlan (raw : List Char) : List WeekSection :=
  ((pySplit weekMarker raw).drop 1).filterMap parseSection

/-- One raw result returned by the upstream search provider: title, url,
and the optional content field read with .get on line 59. -/
structure RawResult where
  title : List Char
  url : List Char
  content : Option (List Char)
  deriving DecidableEq

/-- One normalized course entry as assembled on lines 56-62. -/
structure CourseResult where
  title : List Char
  url : List Char
  description : List Char
  platform : List Char
  rating : List Char
  deriving DecidableEq

/-- The fixed five-symbol marker of line 54. -/
def starMarker : List Char := chars "⭐⭐⭐⭐⭐"

/-- Lines 52-54: the textual rating heuristic on the raw title. -/
def ratingOf (title : List Char) : List Char :=
  if containsSub (chars "rating") (lowerStr title) ||
      containsSub (chars "stars") (lowerStr title) then
    starMarker
  else
    chars "N/A"

/-- Lines 50-62: build one CourseResult from a raw provider result, tagging
the title with the bracketed platform name. -/
def mkCourseResult (platform : List Char) (r : RawResult) : CourseResult :=
  { title := chars "[" ++ platform ++ chars "] " ++ r.title
    url := r.url
    description := r.content.getD (chars "No description available")
    platform := platform
    rating := ratingOf r.title }

/-- The outcome of one upstream Tavily query: the raw result list, or the
message of a raised exception. -/
def Provider : Type := List Char → Except (List Char) (List RawResult)

/-- The fixed platform list of line 37. -/
def platforms : List (List Char) := [chars "Udemy", chars "Coursera", chars "YouTube"]

/-- The query string of line 41. -/
def searchQuery (platform topic : List Char) : List Char :=
  chars "best " ++ platform ++ chars " courses for learning " ++ topic

/-- Lines 40-62: the per-platform loop.  Returns either the accumulated
course list or the first raised error, paired with the number of upstream
queries issued before returning. -/
def runPlatforms (provider : Provider) (topic : List Char) :
    List (List Char) → Except (List Char) (List CourseResult) × Nat
  | [] => (Except.ok [], 0)
  | p :: rest =>
    match provider (searchQuery p topic) with
    | Except.error e => (Except.error e, 1)
    | Except.ok raws =>
      match runPlatforms provider topic rest with
      | (Except.error e, n) => (Except.error e, n + 1)
      | (Except.ok more, n) => (Except.ok (raws.map (mkCourseResult p) ++ more), n + 1)

/-- Lookup in an association list, the embedding of a Python dict read. -/
def lookupL {α : Type} : List (List Char × α) → List Char → Option α
  | [], _ => none
  | (k2, v) :: rest, k => if k2 = k then some v else lookupL rest k

/-- Write to an association list, the embedding of a Python dict assignment:
overwrite an existing key in place, else append. -/
def insertL {α : Type} : List (List Char × α) → List Char → α → List (List Char × α)
  | [], k, v => [(k, v)]
  | (k2, v2) :: rest, k, v =>
    if k2 = k then (k, v) :: rest else (k2, v2) :: insertL rest k v

/-- Line 31: the session-cache key for a topic. -/
def cacheKey (topic : List Char) : List Char := chars "search_" ++ lowerStr topic

/-- One entry of the st.cache_data layer (line 27): the memoized return
value together with its insertion timestamp (ttl is 3600 seconds). -/
structure OuterEntry where
  time : Nat
  value : List CourseResult
  deriving DecidableEq

/-- The two cache layers: `outer` is the st.cache_data memo keyed by the
exact topic argument; `inner` is st.session_state.search_cache keyed by
`cacheKey`. -/
structure CacheState where
  outer : List (List Char × OuterEntry)
  inner : List (List Char × List CourseResult)
  deriving DecidableEq

/-- Both cache layers empty: the state of a fresh session. -/
def emptyCaches : CacheState := ⟨[], []⟩

/-- Everything one call to search_courses produces: the returned list, the
updated caches, the number of upstream queries issued, whether the
time.sleep(1) courtesy delay of line 70 ran, and the st.error diagnostic of
line 69 when one was shown. -/
structure SearchOutcome where
  results : List CourseResult
  state : CacheState
  queries : Nat
  slept : Bool
  errReported : Option (List Char)
  deriving DecidableEq

/-- Lines 30-71: the function body, which runs when the st.cache_data layer
misses (or is stale).  It checks the session cache, else runs the platform
loop; a raised error is caught, reported, followed by the courtesy delay,
and turned into an empty return.  Whatever the body returns is memoized in
the outer layer with the current timestamp. -/
def searchFresh (provider : Provider) (now : Nat) (st : CacheState)
    (topic : List Char) : SearchOutcome :=
  let key := cacheKey topic
  match lookupL st.inner key with
  | some cached =>
    ⟨cached, { st with outer := insertL st.outer topic ⟨now, cached⟩ }, 0, false, none⟩
  | none =>
    match runPlatforms provider topic platforms with
    | (Except.ok gathered, n) =>
      ⟨gathered,
        ⟨insertL st.outer topic ⟨now, gathered⟩, insertL st.inner key gathered⟩,
        n, false, none⟩
    | (Except.error e, n) =>
      ⟨[], { st with outer := insertL st.outer topic ⟨now, []⟩ }, n, true,
        some (chars "Error searching for courses: " ++ e)⟩

/-- Lines 27-71: search_courses.  `now` is the wall clock.  The st.cache_data
layer is consulted first: a fresh entry (younger than 3600 seconds) is
returned directly; otherwise the body runs. -/
def search_courses (provider : Provider) (now : Nat) (st : CacheState)
    (topic : List Char) : SearchOutcome :=
  match lookupL st.outer topic with
  | some entry =>
    if now < entry.time + 3600 then ⟨entry.value, st, 0, false, none⟩
    else searchFresh provider now st topic
  | none => searchFresh provider now st topic

/-- The structured user submission of lines 167-199. -/
structure PlanRequest where
  topic : List Char
  duration : Nat
  learningStyle : List Char
  proficiency : List Char

/-- The assembled output of one successful generation cycle. -/
structure PlanOutput where
  weeks : List WeekSection
  courses : List CourseResult

/-- What one generation cycle produces: the result (or the caught error
message of line 266), the cache state afterwards, and the number of
upstream search queries issued. -/
structure PlanOutcome where
  result : Except (List Char) PlanOutput
  state : CacheState
  searchQueries : Nat

/-- Lines 204-266: one generation cycle.  The outcome of the LLM call of
line 219 is a parameter (the LLM is an external collaborator).  When it
raised, the except branch of lines 265-266 reports the failure and nothing
further runs; on success the plan is parsed (lines 227-234) and then the
courses are fetched through the caches (line 244). -/
def generatePlan (llmOutcome : Except (List Char) (List Char))
    (provider : Provider) (now : Nat) (st : CacheState) (req : PlanRequest) :
    PlanOutcome :=
  match llmOutcome with
  | Except.error e =>
    ⟨Except.error (chars "Error creating learning plan: " ++ e), st, 0⟩
  | Except.ok raw =>
    let weeks := parsePlan raw
    let o := search_courses provider now st req.topic
    ⟨Except.ok ⟨weeks, o.results⟩, o.state, o.queries⟩

/-! ## Helper lemmas -/

/-- Writing a key makes it readable: a dict read after a dict write of the
same key sees the written value. -/
theorem lookupL_insertL {α : Type} (m : List (List Char × α)) (k : List Char) (v : α) :
    lookupL (insertL m k v) k = some v := by
  induction m with
  | nil => simp [insertL, lookupL]
  | cons kv rest ih =>
    obtain ⟨k2, v2⟩ := kv
    by_cases h : k2 = k <;> simp [insertL, lookupL, h, ih]

/-- Writing one key leaves the readings of every other key unchanged. -/
theorem lookupL_insertL_ne {α : Type} (m : List (List Char × α)) (k1 k2 : List Char)
    (v : α) (h : k1 ≠ k2) : lookupL (insertL m k1 v) k2 = lookupL m k2 := by
  induction m with
  | nil => simp [insertL, lookupL, h]
  | cons kv rest ih =>
    obtain ⟨k3, v3⟩ := kv
    by_cases h3 : k3 = k1
    · subst h3
      simp [insertL, lookupL, h]
    · simp [insertL, lookupL, h3, ih]

/-- A nonempty platform list always issues at least one upstream query. -/
theorem one_le_runPlatforms_snd (provider : Provider) (topic p : List Char)
    (rest : List (List Char)) : 1 ≤ (runPlatforms provider topic (p :: rest)).2 := by
  unfold runPlatforms
  cases provider (searchQuery p topic) with
  | error e => simp
  | ok raws =>
    rcases h : runPlatforms provider topic rest with ⟨res, n⟩
    cases res <;> simp [h]

/-- The actual platform loop (three platforms) issues at least one query. -/
theorem one_le_platform_queries (provider : Provider) (topic : List Char) :
    1 ≤ (runPlatforms provider topic platforms).2 :=
  one_le_runPlatforms_snd provider topic (chars "Udemy") [chars "Coursera", chars "YouTube"]

/-- A provider that succeeds on every query makes the platform loop succeed,
with one query per platform. -/
theorem runPlatforms_ok_of_ok (provider : Provider) (topic : List Char)
    (hok : ∀ q, ∃ rs, provider q = Except.ok rs) :
    ∀ ps : List (List Char), ∃ cs, runPlatforms provider topic ps = (Except.ok cs, ps.length) := by
  intro ps
  induction ps with
  | nil => exact ⟨[], rfl⟩
  | cons p rest ih =>
    obtain ⟨rs, hrs⟩ := hok (searchQuery p topic)
    obtain ⟨cs, hcs⟩ := ih
    exact ⟨rs.map (mkCourseResult p) ++ cs, by simp [runPlatforms, hrs, hcs]⟩

/-- The st.cache_data layer does not serve this call: there is no entry for
the topic, or only a stale one. -/
def outerMisses (st : CacheState) (now : Nat) (topic : List Char) : Prop :=
  ∀ entry, lookupL st.outer topic = some entry → entry.time + 3600 ≤ now

/-- A missing outer entry misses at every time. -/
theorem outerMisses_of_none {st : CacheState} {topic : List Char} (now : Nat)
    (h : lookupL st.outer topic = none) : outerMisses st now topic := by
  intro entry heq
  rw [h] at heq
  cases heq

/-- When the outer layer does not serve the call, search_courses runs the
body. -/
theorem search_courses_eq_fresh (provider : Provider) (now : Nat) (st : CacheState)
    (topic : List Char) (houter : outerMisses st now topic) :
    search_courses provider now st topic = searchFresh provider now st topic := by
  rcases h : lookupL st.outer topic with _ | entry
  · simp only [search_courses, h]
  · have hle := houter entry h
    simp only [search_courses, h]
    rw [if_neg (by omega)]

/-- The body when the session cache holds the key: the cached list is
returned with no upstream query, and the outer layer memoizes it. -/
theorem searchFresh_inner_hit (provider : Provider) (now : Nat) (st : CacheState)
    (topic : List Char) (cs : List CourseResult)
    (h2 : lookupL st.inner (cacheKey topic) = some cs) :
    searchFresh provider now st topic =
      ⟨cs, { st with outer := insertL st.outer topic ⟨now, cs⟩ }, 0, false, none⟩ := by
  simp only [searchFresh, h2]

/-- The body when the session cache misses and the platform loop succeeds:
the gathered list is returned and stored in both layers. -/
theorem searchFresh_ok (provider : Provider) (now : Nat) (st : CacheState)
    (topic : List Char) (cs : List CourseResult)
    (h2 : lookupL st.inner (cacheKey topic) = none)
    (h3 : (runPlatforms provider topic platforms).1 = Except.ok cs) :
    searchFresh provider now st topic =
      ⟨cs, ⟨insertL st.outer topic ⟨now, cs⟩, insertL st.inner (cacheKey topic) cs⟩,
        (runPlatforms provider topic platforms).2, false, none⟩ := by
  rcases hrp : runPlatforms provider topic platforms with ⟨res, n⟩
  rw [hrp] at h3
  simp only at h3
  subst h3
  simp only [searchFresh, h2, hrp]

/-- The body when the session cache misses and the platform loop raises:
the error is caught and reported, the courtesy delay runs, the returned
list is empty, and only the outer layer records the (empty) return value. -/
theorem searchFresh_error (provider : Provider) (now : Nat) (st : CacheState)
    (topic e : List Char)
    (h2 : lookupL st.inner (cacheKey topic) = none)
    (h3 : (runPlatforms provider topic platforms).1 = Except.error e) :
    searchFresh provider now st topic =
      ⟨[], ⟨insertL st.outer topic ⟨now, []⟩, st.inner⟩,
        (runPlatforms provider topic platforms).2, true,
        some (chars "Error searching for courses: " ++ e)⟩ := by
  rcases hrp : runPlatforms provider topic platforms with ⟨res, n⟩
  rw [hrp] at h3
  simp only at h3
  subst h3
  simp only [searchFresh, h2, hrp]

/-- search_courses when the outer layer misses (or is stale), the session
cache misses, and the platform loop raises. -/
theorem search_courses_error_case (provider : Provider) (now : Nat) (st : CacheState)
    (topic e : List Char)
    (h1 : outerMisses st now topic)
    (h2 : lookupL st.inner (cacheKey topic) = none)
    (h3 : (runPlatforms provider topic platforms).1 = Except.error e) :
    search_courses provider now st topic =
      ⟨[], ⟨insertL st.outer topic ⟨now, []⟩, st.inner⟩,
        (runPlatforms provider topic platforms).2, true,
        some (chars "Error searching for courses: " ++ e)⟩ := by
  rw [search_courses_eq_fresh provider now st topic h1]
  exact searchFresh_error provider now st topic e h2 h3

/-- search_courses when the outer layer misses (or is stale), the session
cache misses, and the platform loop succeeds. -/
theorem search_courses_ok_case (provider : Provider) (now : Nat) (st : CacheState)
    (topic : List Char) (cs : List CourseResult)
    (h1 : outerMisses st now topic)
    (h2 : lookupL st.inner (cacheKey topic) = none)
    (h3 : (runPlatforms provider topic platforms).1 = Except.ok cs) :
    search_courses provider now st topic =
      ⟨cs, ⟨insertL st.outer topic ⟨now, cs⟩, insertL st.inner (cacheKey topic) cs⟩,
        (runPlatforms provider topic platforms).2, false, none⟩ := by
  rw [search_courses_eq_fresh provider now st topic h1]
  exact searchFresh_ok provider now st topic cs h2 h3

/-- search_courses on a fresh outer entry: served from the memo, no body
run, state unchanged. -/
theorem search_courses_outer_hit (provider : Provider) (now : Nat) (st : CacheState)
    (topic : List Char) (entry : OuterEntry)
    (h : lookupL st.outer topic = some entry) (ht : now < entry.time + 3600) :
    search_courses provider now st topic = ⟨entry.value, st, 0, false, none⟩ := by
  simp only [search_courses, h]
  rw [if_pos ht]

/-- search_courses when the outer layer misses (or is stale) but the
session cache holds the key. -/
theorem search_courses_inner_hit (provider : Provider) (now : Nat) (st : CacheState)
    (topic : List Char) (cs : List CourseResult)
    (h1 : outerMisses st now topic)
    (h2 : lookupL st.inner (cacheKey topic) = some cs) :
    search_courses provider now st topic =
      ⟨cs, { st with outer := insertL st.outer topic ⟨now, cs⟩ }, 0, false, none⟩ := by
  rw [search_courses_eq_fresh provider now st topic h1]
  exact searchFresh_inner_hit provider now st topic cs h2

/-- When the separator occurs nowhere in the input and the fuel covers the
input length, the splitter returns a single segment: the accumulator
followed by the whole input. -/
theorem splitFuel_of_not_contains (sep : List Char) :
    ∀ (s : List Char) (fuel : Nat) (acc : List Char), s.length ≤ fuel →
      containsSub sep s = false → splitFuel sep fuel s acc = [acc.reverse ++ s] := by
  intro s
  induction s with
  | nil =>
    intro fuel acc _ _
    cases fuel <;> simp [splitFuel]
  | cons c rest ih =>
    intro fuel acc hlen hns
    cases fuel with
    | zero => simp at hlen
    | succ f =>
      have hsplit : List.isPrefixOf sep (c :: rest) = false ∧ containsSub sep rest = false := by
        simpa [containsSub] using hns
      have hlen2 : rest.length ≤ f := by simpa using hlen
      simp [splitFuel, hsplit.1, ih f (c :: acc) hlen2 hsplit.2]

/-- Python str.split on an input free of the separator yields the input as
the only segment. -/
theorem pySplit_of_not_contains (sep s : List Char) (h : containsSub sep s = false) :
    pySplit sep s = [s] := by
  simpa using splitFuel_of_not_contains sep s s.length [] (Nat.le_refl _) h

/-! ## The claims -/

/-- Claim C6: parsing "Week 1: Goal A\nWeek 2: Goal B" yields exactly the
two week sections, in order, with the content stripped of surrounding
whitespace. -/
theorem C6_parser_round_trip :
    parsePlan (chars "Week 1: Goal A\nWeek 2: Goal B") =
      [⟨chars "1", chars "Goal A"⟩, ⟨chars "2", chars "Goal B"⟩] := by decide

/-- Claim C7: an input without the "Week " substring parses to the empty
sequence of week sections. -/
theorem C7_parser_degenerate (raw : List Char)
    (h : containsSub weekMarker raw = false) : parsePlan raw = [] := by
  unfold parsePlan
  rw [pySplit_of_not_contains weekMarker raw h]
  rfl

/-- Witness for C7 at a concrete marker-free input. -/
theorem C7_parser_degenerate_witness :
    containsSub weekMarker (chars "hello world, no markers") = false ∧
      parsePlan (chars "hello world, no markers") = [] :=
  ⟨by decide, C7_parser_degenerate (chars "hello world, no markers") (by decide)⟩

/-- Claim C8: every week section the parser produces has non-empty
(stripped) content, and the week-1 segment of "Week 1:\nWeek 2: Content",
whose stripped content is empty, is dropped, leaving only week 2. -/
theorem C8_nonempty_content :
    (∀ raw : List Char, ((parsePlan raw).all fun ws => !ws.content.isEmpty) = true) ∧
      parsePlan (chars "Week 1:\nWeek 2: Content") = [⟨chars "2", chars "Content"⟩] := by
  constructor
  · intro raw
    rw [List.all_eq_true]
    intro ws hmem
    unfold parsePlan at hmem
    obtain ⟨seg, _, hseg⟩ := List.mem_filterMap.mp hmem
    simp only [parseSection] at hseg
    split at hseg
    · cases hseg
    · rename_i hcne
      injection hseg with hws
      subst hws
      simpa [List.isEmpty_iff] using hcne
  · decide

/-- Claim C9: a constructed CourseResult carries the five-star marker
exactly when the raw title contains "rating" or "stars" case-insensitively,
and carries "N/A" otherwise; in particular a title containing "5-star
rating" gets the marker and a title containing "Complete Guide" gets "N/A",
and no third rating value can occur. -/
theorem C9_rating_heuristic :
    (∀ (p : List Char) (r : RawResult),
      ((mkCourseResult p r).rating = starMarker ↔
        (containsSub (chars "rating") (lowerStr r.title) ||
          containsSub (chars "stars") (lowerStr r.title)) = true) ∧
      ((mkCourseResult p r).rating = starMarker ∨
        (mkCourseResult p r).rating = chars "N/A")) ∧
    (mkCourseResult (chars "Udemy")
      ⟨chars "Python - a 5-star rating course", chars "u", none⟩).rating = starMarker ∧
    (mkCourseResult (chars "Udemy")
      ⟨chars "Python Complete Guide", chars "u", none⟩).rating = chars "N/A" := by
  refine ⟨?_, by decide, by decide⟩
  intro p r
  have hne : starMarker ≠ chars "N/A" := by decide
  cases hb : (containsSub (chars "rating") (lowerStr r.title) ||
      containsSub (chars "stars") (lowerStr r.title)) with
  | false =>
    constructor
    · simp only [mkCourseResult, ratingOf, hb, if_false, Bool.false_eq_true, iff_false]
      exact fun h => hne h.symm
    · right
      simp [mkCourseResult, ratingOf, hb]
  | true =>
    constructor
    · simp [mkCourseResult, ratingOf, hb]
    · left
      simp [mkCourseResult, ratingOf, hb]

/-- Claim C2: when the LLM call has failed, the generation cycle reports an
error that carries the failure message, produces no plan output, leaves the
caches untouched, and issues zero search-provider queries. -/
theorem C2_llm_failure_aborts (e : List Char) (provider : Provider) (now : Nat)
    (st : CacheState) (req : PlanRequest) :
    generatePlan (Except.error e) provider now st req =
      ⟨Except.error (chars "Error creating learning plan: " ++ e), st, 0⟩ := rfl

/-- Claim C3: with a successful LLM call, cold caches for the topic, and a
provider that raises on every platform query, the cycle still ends in a
non-error result whose course list is empty and whose weeks are exactly
what the parser produced from the LLM output. -/
theorem C3_search_failure_isolated (raw : List Char) (provider : Provider)
    (now : Nat) (st : CacheState) (req : PlanRequest)
    (h1 : lookupL st.outer req.topic = none)
    (h2 : lookupL st.inner (cacheKey req.topic) = none)
    (hprov : ∀ p ∈ platforms, ∃ e, provider (searchQuery p req.topic) = Except.error e) :
    (generatePlan (Except.ok raw) provider now st req).result =
      Except.ok ⟨parsePlan raw, []⟩ := by
  obtain ⟨e, he⟩ := hprov (chars "Udemy") (by simp [platforms])
  have hrp : (runPlatforms provider req.topic platforms).1 = Except.error e := by
    simp [platforms, runPlatforms, he]
  simp [generatePlan,
    search_courses_error_case provider now st req.topic e (outerMisses_of_none now h1) h2 hrp]

/-- Witness for C3: a concrete cycle whose provider always raises. -/
theorem C3_search_failure_isolated_witness :
    (generatePlan (Except.ok (chars "Week 1: Sets"))
        (fun _ => Except.error (chars "boom")) 0 emptyCaches
        ⟨chars "math", 4, chars "Visual", chars "Intermediate"⟩).result =
      Except.ok ⟨parsePlan (chars "Week 1: Sets"), []⟩ :=
  C3_search_failure_isolated (chars "Week 1: Sets") (fun _ => Except.error (chars "boom"))
    0 emptyCaches ⟨chars "math", 4, chars "Visual", chars "Intermediate"⟩
    rfl rfl (fun _ _ => ⟨chars "boom", rfl⟩)

/-- Claim C1, counterexample: a provider that succeeds for the Udemy query
(one result gathered) and raises for the Coursera query.  search_courses
returns the empty list, not the result set gathered before the failure. -/
def provC1 : Provider := fun q =>
  if q = searchQuery (chars "Udemy") (chars "python") then
    Except.ok [⟨chars "Intro to Python", chars "u1", some (chars "d1")⟩]
  else
    Except.error (chars "quota exceeded")

/-- Claim C1 is false as stated: with provC1, one course was gathered from
Udemy before Coursera raised, yet the call returns [], not that gathered
set. -/
theorem C1_counterexample :
    provC1 (searchQuery (chars "Udemy") (chars "python")) =
      Except.ok [⟨chars "Intro to Python", chars "u1", some (chars "d1")⟩] ∧
    provC1 (searchQuery (chars "Coursera") (chars "python")) =
      Except.error (chars "quota exceeded") ∧
    (search_courses provC1 0 emptyCaches (chars "python")).results = [] ∧
    (search_courses provC1 0 emptyCaches (chars "python")).results ≠
      [mkCourseResult (chars "Udemy")
        ⟨chars "Intro to Python", chars "u1", some (chars "d1")⟩] := by
  refine ⟨rfl, rfl, by decide, by decide⟩

/-- Claim C1 (amended): when the caches miss and an upstream query raises,
search_courses catches the error (returning normally with a reported
diagnostic), runs the courtesy delay, and returns the empty result set —
anything gathered before the failure is discarded. -/
theorem C1_error_soft_empty (provider : Provider) (now : Nat) (st : CacheState)
    (topic e : List Char)
    (h1 : lookupL st.outer topic = none)
    (h2 : lookupL st.inner (cacheKey topic) = none)
    (h3 : (runPlatforms provider topic platforms).1 = Except.error e) :
    (search_courses provider now st topic).results = [] ∧
    (search_courses provider now st topic).slept = true ∧
    (search_courses provider now st topic).errReported =
      some (chars "Error searching for courses: " ++ e) := by
  rw [search_courses_error_case provider now st topic e (outerMisses_of_none now h1) h2 h3]
  exact ⟨rfl, rfl, rfl⟩

/-- Witness for the amended C1 at a concrete always-failing provider. -/
theorem C1_error_soft_empty_witness :
    (search_courses (fun _ => Except.error (chars "boom")) 0 emptyCaches
        (chars "python")).results = [] ∧
    (search_courses (fun _ => Except.error (chars "boom")) 0 emptyCaches
        (chars "python")).slept = true ∧
    (search_courses (fun _ => Except.error (chars "boom")) 0 emptyCaches
        (chars "python")).errReported =
      some (chars "Error searching for courses: " ++ chars "boom") :=
  C1_error_soft_empty (fun _ => Except.error (chars "boom")) 0 emptyCaches
    (chars "python") (chars "boom") rfl rfl rfl

/-- Claim C4: from a fresh session, two searches for the same topic within
the one-hour window issue upstream queries only on the first call (at least
one there, none on the second), and the second call returns a sequence
equal by value to the one the first call returned. -/
theorem C4_second_call_cached (provider p2 : Provider) (t0 t1 : Nat)
    (topic : List Char) (h : t1 < t0 + 3600) :
    1 ≤ (search_courses provider t0 emptyCaches topic).queries ∧
    (search_courses p2 t1
      (search_courses provider t0 emptyCaches topic).state topic).queries = 0 ∧
    (search_courses p2 t1
      (search_courses provider t0 emptyCaches topic).state topic).results =
      (search_courses provider t0 emptyCaches topic).results := by
  rcases hrp : runPlatforms provider topic platforms with ⟨res, n⟩
  have hq : 1 ≤ n := by
    have hh := one_le_platform_queries provider topic
    rw [hrp] at hh
    exact hh
  cases res with
  | ok cs =>
    have ho1 := search_courses_ok_case provider t0 emptyCaches topic cs
      (outerMisses_of_none t0 rfl) rfl (by rw [hrp])
    rw [hrp] at ho1
    have ho2 := search_courses_outer_hit p2 t1
      ⟨insertL emptyCaches.outer topic ⟨t0, cs⟩, insertL emptyCaches.inner (cacheKey topic) cs⟩
      topic ⟨t0, cs⟩ (lookupL_insertL _ _ _) h
    simp [ho1, ho2, hq]
  | error e =>
    have ho1 := search_courses_error_case provider t0 emptyCaches topic e
      (outerMisses_of_none t0 rfl) rfl (by rw [hrp])
    rw [hrp] at ho1
    have ho2 := search_courses_outer_hit p2 t1
      ⟨insertL emptyCaches.outer topic ⟨t0, []⟩, emptyCaches.inner⟩
      topic ⟨t0, []⟩ (lookupL_insertL _ _ _) h
    simp [ho1, ho2, hq]

/-- Witness for C4 at a concrete provider and times 0 and 100. -/
theorem C4_second_call_cached_witness :
    1 ≤ (search_courses (fun _ => Except.ok [⟨chars "T", chars "u", none⟩]) 0
      emptyCaches (chars "python")).queries ∧
    (search_courses (fun _ => Except.ok [⟨chars "T", chars "u", none⟩]) 100
      (search_courses (fun _ => Except.ok [⟨chars "T", chars "u", none⟩]) 0
        emptyCaches (chars "python")).state (chars "python")).queries = 0 ∧
    (search_courses (fun _ => Except.ok [⟨chars "T", chars "u", none⟩]) 100
      (search_courses (fun _ => Except.ok [⟨chars "T", chars "u", none⟩]) 0
        emptyCaches (chars "python")).state (chars "python")).results =
      (search_courses (fun _ => Except.ok [⟨chars "T", chars "u", none⟩]) 0
        emptyCaches (chars "python")).results :=
  C4_second_call_cached (fun _ => Except.ok [⟨chars "T", chars "u", none⟩])
    (fun _ => Except.ok [⟨chars "T", chars "u", none⟩]) 0 100 (chars "python")
    (by omega)

/-- Claim C5: two topics that agree after lowercasing get the same cache
key, and after a successful search for the first, a search for the second
is served from the same session-cache entry: it issues no upstream queries
and returns the sequence the first call returned. -/
theorem C5_case_insensitive_key (ta tb : List Char) (provider p2 : Provider)
    (t0 t1 : Nat) (hcase : lowerStr ta = lowerStr tb)
    (hok : ∀ q, ∃ rs, provider q = Except.ok rs) :
    cacheKey ta = cacheKey tb ∧
    (search_courses p2 t1
      (search_courses provider t0 emptyCaches ta).state tb).queries = 0 ∧
    (search_courses p2 t1
      (search_courses provider t0 emptyCaches ta).state tb).results =
      (search_courses provider t0 emptyCaches ta).results := by
  have hkey : cacheKey ta = cacheKey tb := by
    unfold cacheKey
    rw [hcase]
  obtain ⟨cs, hcs⟩ := runPlatforms_ok_of_ok provider ta hok platforms
  have ho1 := search_courses_ok_case provider t0 emptyCaches ta cs
    (outerMisses_of_none t0 rfl) rfl (by rw [hcs])
  rw [hcs] at ho1
  refine ⟨hkey, ?_⟩
  by_cases hab : ta = tb
  · subst hab
    by_cases ht : t1 < t0 + 3600
    · have ho2 := search_courses_outer_hit p2 t1
        ⟨insertL emptyCaches.outer ta ⟨t0, cs⟩, insertL emptyCaches.inner (cacheKey ta) cs⟩
        ta ⟨t0, cs⟩ (lookupL_insertL _ _ _) ht
      simp [ho1, ho2]
    · have hmiss : outerMisses
          ⟨insertL emptyCaches.outer ta ⟨t0, cs⟩, insertL emptyCaches.inner (cacheKey ta) cs⟩
          t1 ta := by
        intro entry heq
        rw [lookupL_insertL] at heq
        injection heq with heq2
        subst heq2
        show t0 + 3600 ≤ t1
        omega
      have ho2 := search_courses_inner_hit p2 t1
        ⟨insertL emptyCaches.outer ta ⟨t0, cs⟩, insertL emptyCaches.inner (cacheKey ta) cs⟩
        ta cs hmiss (lookupL_insertL _ _ _)
      simp [ho1, ho2]
  · have hmiss : outerMisses
        ⟨insertL emptyCaches.outer ta ⟨t0, cs⟩, insertL emptyCaches.inner (cacheKey ta) cs⟩
        t1 tb := by
      intro entry heq
      rw [lookupL_insertL_ne _ _ _ _ hab] at heq
      simp [emptyCaches, lookupL] at heq
    have ho2 := search_courses_inner_hit p2 t1
      ⟨insertL emptyCaches.outer ta ⟨t0, cs⟩, insertL emptyCaches.inner (cacheKey ta) cs⟩
      tb cs hmiss (by rw [← hkey]; exact lookupL_insertL _ _ _)
    simp [ho1, ho2]

/-- Witness for C5 at the pair "Python" and "python". -/
theorem C5_case_insensitive_key_witness :
    cacheKey (chars "Python") = cacheKey (chars "python") ∧
    (search_courses (fun _ => Except.ok []) 9999
      (search_courses (fun _ => Except.ok [⟨chars "T", chars "u", none⟩]) 0
        emptyCaches (chars "Python")).state (chars "python")).queries = 0 ∧
    (search_courses (fun _ => Except.ok []) 9999
      (search_courses (fun _ => Except.ok [⟨chars "T", chars "u", none⟩]) 0
        emptyCaches (chars "Python")).state (chars "python")).results =
      (search_courses (fun _ => Except.ok [⟨chars "T", chars "u", none⟩]) 0
        emptyCaches (chars "Python")).results :=
  C5_case_insensitive_key (chars "Python") (chars "python")
    (fun _ => Except.ok [⟨chars "T", chars "u", none⟩]) (fun _ => Except.ok [])
    0 9999 (by decide) (fun _ => ⟨[⟨chars "T", chars "u", none⟩], rfl⟩)

/-- Claim C10: when an upstream query raises on a call that missed both
layers, the session cache map is unchanged by that call, and a later call
for the same topic that reaches the function body again (here: after the
outer memo entry went stale) issues at least one upstream query instead of
being served a cached failure. -/
theorem C10_failure_not_session_cached (provider p2 : Provider) (now t2 : Nat)
    (st : CacheState) (topic e : List Char)
    (h1 : lookupL st.outer topic = none)
    (h2 : lookupL st.inner (cacheKey topic) = none)
    (h3 : (runPlatforms provider topic platforms).1 = Except.error e)
    (ht : now + 3600 ≤ t2) :
    (search_courses provider now st topic).state.inner = st.inner ∧
    1 ≤ (search_courses p2 t2
      (search_courses provider now st topic).state topic).queries := by
  have ho1 := search_courses_error_case provider now st topic e
    (outerMisses_of_none now h1) h2 h3
  constructor
  · rw [ho1]
  · have hmiss : outerMisses ⟨insertL st.outer topic ⟨now, []⟩, st.inner⟩ t2 topic := by
      intro entry heq
      rw [lookupL_insertL] at heq
      injection heq with heq2
      subst heq2
      exact ht
    rcases hrp2 : runPlatforms p2 topic platforms with ⟨res2, n2⟩
    have hq2 : 1 ≤ n2 := by
      have hh := one_le_platform_queries p2 topic
      rw [hrp2] at hh
      exact hh
    cases res2 with
    | ok cs2 =>
      have ho2 := search_courses_ok_case p2 t2
        ⟨insertL st.outer topic ⟨now, []⟩, st.inner⟩ topic cs2 hmiss h2 (by rw [hrp2])
      rw [hrp2] at ho2
      simp [ho1, ho2, hq2]
    | error e2 =>
      have ho2 := search_courses_error_case p2 t2
        ⟨insertL st.outer topic ⟨now, []⟩, st.inner⟩ topic e2 hmiss h2 (by rw [hrp2])
      rw [hrp2] at ho2
      simp [ho1, ho2, hq2]

/-- Witness for C10 at a concrete always-failing provider. -/
theorem C10_failure_not_session_cached_witness :
    (search_courses (fun _ => Except.error (chars "boom")) 0 emptyCaches
      (chars "python")).state.inner = emptyCaches.inner ∧
    1 ≤ (search_courses (fun _ => Except.error (chars "boom")) 4000
      (search_courses (fun _ => Except.error (chars "boom")) 0 emptyCaches
        (chars "python")).state (chars "python")).queries :=
  C10_failure_not_session_cached (fun _ => Except.error (chars "boom"))
    (fun _ => Except.error (chars "boom")) 0 4000 emptyCaches
    (chars "python") (chars "boom") rfl rfl rfl (by omega)

end EduGenie
